/-
Verification of the MuBot outreach safety / follow-up scheduling subsystem.

The definitions below are shallow embeddings of the Python source:
  * `integrations/google_sheets.py`  — `add_working_days`
  * `src/mubot/agent/safety.py`      — `SafetyGuardrails`
  * `src/mubot/memory/manager.py`    — `MemoryManager` (daily stats, pending follow-ups)
  * `src/mubot/memory/models.py`     — entity models
  * `auto_campaign.py`               — follow-up scheduling and the due filter
  * `src/mubot/agent/core.py`        — `process_response`
  * `src/mubot/pipelines/job_pipeline.py` — stage tracking

Instants (`datetime`) are modelled as a day number since the epoch together
with a second-of-day; 1970-01-01 was a Thursday, so Python's
`datetime.weekday()` (Monday = 0) is `(day + 3) % 7`.
-/
import Mathlib

namespace MuBot

/-! ## Time model -/

/-- A UTC instant: days since 1970-01-01 plus the second within the day.
`timedelta(days = n)` changes only `day`; `weekday()` is `(day + 3) % 7`
because the epoch fell on a Thursday. -/
structure DateTime where
  day : Nat
  tod : Nat
  deriving DecidableEq

/-- Python `datetime.weekday()`: Monday = 0 … Sunday = 6. -/
def DateTime.weekday (d : DateTime) : Nat := (d.day + 3) % 7

/-- `d + timedelta(days = n)`: the time of day is unchanged. -/
def DateTime.addDays (d : DateTime) (n : Nat) : DateTime := { d with day := d.day + n }

/-- Total seconds since the epoch; `(a - b).total_seconds()` is
`a.toSec - b.toSec` over the integers. -/
def DateTime.toSec (d : DateTime) : Nat := d.day * 86400 + d.tod

/-- `a <= b` on instants. -/
def DateTime.le (a b : DateTime) : Bool := a.toSec ≤ b.toSec

/-- `datetime.isoformat()`, abstracted: an injective rendering of the instant.
Like the real output it consists only of digits and punctuation-like
separators, so it can never contribute letters to a substring search. -/
def DateTime.isoformat (d : DateTime) : String := toString d.day ++ "T" ++ toString d.tod

/-- `(a - b).days` of a Python `timedelta`: floor division of the signed
second difference by 86400. -/
def daysBetween (a b : DateTime) : Int := Int.fdiv ((a.toSec : Int) - (b.toSec : Int)) 86400

/-! ## `add_working_days` (integrations/google_sheets.py) -/

/-- Number of weekend days the loop in `add_working_days` still has to cross
before its next counted iteration; drives the termination measure only. -/
def weekendGap (d : DateTime) : Nat :=
  if d.weekday = 4 then 2 else if d.weekday = 5 then 1 else 0

/-- The `while days_added < working_days` loop of `add_working_days`
(`integrations/google_sheets.py`): step one day (the stepped value is
`current + timedelta(days=1)`); count the step only when it lands on a
weekday (`weekday() < 5`). -/
def addWorkingDaysGo (current : DateTime) (daysAdded workingDays : Nat) : DateTime :=
  if daysAdded < workingDays then
    if (current.addDays 1).weekday < 5 then
      addWorkingDaysGo (current.addDays 1) (daysAdded + 1) workingDays
    else
      addWorkingDaysGo (current.addDays 1) daysAdded workingDays
  else
    current
termination_by 3 * (workingDays - daysAdded) + weekendGap current
decreasing_by
  · simp only [DateTime.weekday, DateTime.addDays, weekendGap] at *
    split_ifs <;> omega
  · simp only [DateTime.weekday, DateTime.addDays, weekendGap] at *
    split_ifs <;> omega

/-- `add_working_days(start_date, working_days)` from
`integrations/google_sheets.py`. -/
def add_working_days (start_date : DateTime) (working_days : Nat) : DateTime :=
  addWorkingDaysGo start_date 0 working_days

/-- Is epoch-day `d` a weekday (Monday–Friday)? -/
def isWeekdayNum (d : Nat) : Bool := (d + 3) % 7 < 5

/-- The number of weekdays among the days strictly after day `a`, up to and
including day `a + n`. -/
def weekdaysAfter (a n : Nat) : Nat :=
  ((List.range' (a + 1) n).filter isWeekdayNum).length

/-! ## Enums and the check result record (safety.py, models.py) -/

/-- `SafetyLevel` from safety.py. -/
inductive SafetyLevel where
  | info
  | warning
  | blocking
  deriving DecidableEq

/-- `ViolationType` from safety.py. -/
inductive ViolationType where
  | rate_limit
  | daily_limit
  | duplicate_outreach
  | no_contact_list
  | missing_approval
  | unsubscribe_request
  | mass_email_pattern
  | missing_unsubscribe
  deriving DecidableEq

/-- A value stored in a check's `details` dict. -/
inductive DetailValue where
  | str (s : String)
  | int (n : Int)
  | date (d : DateTime)
  | null
  deriving DecidableEq

/-- `SafetyCheck` from safety.py; the `details` dict is a key/value list. -/
structure SafetyCheck where
  passed : Bool
  level : SafetyLevel
  violation_type : Option ViolationType
  message : String
  details : List (String × DetailValue)
  deriving DecidableEq

/-- `OutreachStatus` from models.py. -/
inductive OutreachStatus where
  | draft
  | scheduled
  | sent
  | replied
  | followup_sent
  | converted
  | dead
  deriving DecidableEq

/-- The `.value` string of each `OutreachStatus` member. -/
def OutreachStatus.value : OutreachStatus → String
  | .draft => "draft"
  | .scheduled => "scheduled"
  | .sent => "sent"
  | .replied => "replied"
  | .followup_sent => "followup-sent"
  | .converted => "converted"
  | .dead => "dead"

/-- `ResponseCategory` from models.py. -/
inductive ResponseCategory where
  | positive
  | neutral
  | rejection
  | no_response
  | needs_reply
  deriving DecidableEq

/-- The `.value` string of each `ResponseCategory` member. -/
def ResponseCategory.value : ResponseCategory → String
  | .positive => "positive"
  | .neutral => "neutral"
  | .rejection => "rejection"
  | .no_response => "no-response"
  | .needs_reply => "needs-reply"

/-! ## Entity models (models.py) -/

/-- `OutreachEntry` from models.py (the fields the verified operations
touch; list-valued metadata fields that no operation reads are omitted). -/
structure OutreachEntry where
  id : String
  created_at : DateTime
  recipient_email : String
  recipient_name : Option String := none
  recipient_title : Option String := none
  company_name : String
  role_title : String
  subject : String
  body : String
  personalization_elements : List String := []
  status : OutreachStatus := .draft
  response_category : Option ResponseCategory := none
  drafted_at : Option DateTime := none
  sent_at : Option DateTime := none
  replied_at : Option DateTime := none
  followup_count : Nat := 0
  max_followups : Nat := 3
  next_followup_scheduled : Option DateTime := none
  response_body : Option String := none
  gmail_thread_id : Option String := none
  gmail_message_id : Option String := none
  deriving DecidableEq

/-- `CompanyHistory` from models.py (summary fields used by the guardrails). -/
structure CompanyHistory where
  company_name : String
  total_outreach : Nat := 0
  responses_received : Nat := 0
  positive_responses : Nat := 0
  rejections : Nat := 0
  first_contact_date : Option DateTime := none
  last_contact_date : Option DateTime := none
  deriving DecidableEq

/-- One scheduled follow-up task as appended by
`AutomatedCampaign._schedule_followups` (auto_campaign.py); in the source it
is a string-keyed dict with exactly these keys. -/
structure FollowupTask where
  entry_id : String
  company : String
  role : String
  email : String
  recipient_name : String
  job_description : String
  thread_id : Option String
  due_at : DateTime
  followup_name : String
  sent : Bool
  deriving DecidableEq

/-- `HeartbeatState` from models.py. -/
structure HeartbeatState where
  last_run : Option DateTime := none
  next_scheduled_run : Option DateTime := none
  scheduled_followups : List FollowupTask := []
  pending_replies_to_check : List String := []
  campaigns_paused : Bool := false
  pause_reason : Option String := none
  pause_until : Option DateTime := none
  last_send_timestamp : Option DateTime := none
  emails_sent_in_last_hour : Nat := 0
  current_date : Option String := none
  daily_email_count : Nat := 0
  deriving DecidableEq

/-- `DailyStats` from models.py. -/
structure DailyStats where
  date : String
  emails_drafted : Nat := 0
  emails_sent : Nat := 0
  replies_received : Nat := 0
  positive_responses : Nat := 0
  rejections : Nat := 0
  followups_sent : Nat := 0
  deriving DecidableEq

/-! ## Memory manager (manager.py) -/

/-- Python truthiness of an optional string: `x or dflt`. -/
def pyOr (o : Option String) (dflt : String) : String :=
  match o with
  | none => dflt
  | some s => if s = "" then dflt else s

/-- `entry.x.isoformat() if entry.x else alt`. -/
def isoOr (o : Option DateTime) (alt : String) : String :=
  match o with
  | none => alt
  | some d => d.isoformat

/-- `chr(10).join(f"- {p}" for p in elems) or "- None"`. -/
def personalizationBlock (elems : List String) : String :=
  let joined := String.intercalate "\n" (elems.map (fun p => "- " ++ p))
  if joined = "" then "- None" else joined

/-- `MemoryManager._format_outreach_entry` (manager.py): the Markdown block
appended to the daily log for one entry.  The writer renders the status as
`**Status**: <value>`. -/
def format_outreach_entry (entry : OutreachEntry) : String :=
  "## Outreach: " ++ entry.company_name ++ " - " ++ entry.role_title ++ "\n" ++
  "\n" ++
  "**ID**: " ++ entry.id ++ "\n" ++
  "**Status**: " ++ entry.status.value ++ "\n" ++
  "**Created**: " ++ entry.created_at.isoformat ++ "\n" ++
  "\n" ++
  "### Recipient\n" ++
  "- **Name**: " ++ pyOr entry.recipient_name "Unknown" ++ "\n" ++
  "- **Email**: " ++ entry.recipient_email ++ "\n" ++
  "- **Title**: " ++ pyOr entry.recipient_title "Unknown" ++ "\n" ++
  "\n" ++
  "### Email Content\n" ++
  "**Subject**: " ++ entry.subject ++ "\n" ++
  "\n" ++
  "**Body**:\n" ++
  entry.body ++ "\n" ++
  "\n" ++
  "### Personalization\n" ++
  personalizationBlock entry.personalization_elements ++ "\n" ++
  "\n" ++
  "### Timeline\n" ++
  "- Drafted: " ++ isoOr entry.drafted_at "N/A" ++ "\n" ++
  "- Sent: " ++ isoOr entry.sent_at "N/A" ++ "\n" ++
  "- Replied: " ++ isoOr entry.replied_at "N/A" ++ "\n" ++
  "\n" ++
  "### Follow-ups\n" ++
  "- Count: " ++ toString entry.followup_count ++ "/" ++ toString entry.max_followups ++ "\n" ++
  "- Next scheduled: " ++ isoOr entry.next_followup_scheduled "None" ++ "\n" ++
  "\n" ++
  "### Response\n" ++
  "**Category**: " ++ (match entry.response_category with
                       | some c => c.value
                       | none => "N/A") ++ "\n" ++
  "**Body**: " ++ pyOr entry.response_body "N/A" ++ "\n" ++
  "\n" ++
  "---\n"

/-- One step of `str.count`: does the pattern start at the head of `s`? -/
def matchesAt : List Char → List Char → Bool
  | [], _ => true
  | _ :: _, [] => false
  | q :: qs, c :: cs => q == c && matchesAt qs cs

/-- Non-overlapping occurrence count of the non-empty pattern `q :: qs` in a
character list, scanning left to right as Python `str.count` does.  The
first argument is a step budget (every step drops at least one character,
so a budget of the text length is enough); it makes the recursion primitive
so that concrete instances evaluate. -/
def countOccAux (q : Char) (qs : List Char) : Nat → List Char → Nat
  | _, [] => 0
  | 0, _ :: _ => 0
  | fuel + 1, c :: rest =>
    if matchesAt (q :: qs) (c :: rest) then
      1 + countOccAux q qs fuel (rest.drop qs.length)
    else
      countOccAux q qs fuel rest

/-- Python `content.count(pat)` (an empty pattern never occurs below). -/
def pyCount (content pat : String) : Nat :=
  match pat.data with
  | [] => content.length + 1
  | q :: qs => countOccAux q qs content.data.length content.data

/-- The body of today's `memory/YYYY-MM-DD.md` log after saving the given
entry blocks in order: `FileStore.append_to_markdown` creates the file with
the first block and joins later blocks with a blank line; `none` when no
entry was ever saved today. -/
def daily_log_content (blocks : List String) : Option String :=
  match blocks with
  | [] => none
  | b :: rest => some (rest.foldl (fun acc x => acc ++ "\n\n" ++ x) b)

/-- The slice of `MemoryManager` state the guardrails read: the body of
today's daily log and the heartbeat state. -/
structure Memory where
  todayStr : String
  todayContent : Option String
  heartbeat : HeartbeatState
  deriving DecidableEq

/-- `MemoryManager.get_daily_stats` (manager.py): parse today's Markdown log
by substring counting.  Note the searched text `Status: sent` versus the
writer's `**Status**: sent`. -/
def get_daily_stats (m : Memory) : DailyStats :=
  match m.todayContent with
  | none => { date := m.todayStr }
  | some content =>
    { date := m.todayStr
      emails_sent := pyCount content "Status: sent"
      replies_received := pyCount content "Status: replied"
      positive_responses := pyCount content "Category: positive"
      rejections := pyCount content "Category: rejection" }

/-- `MemoryManager.get_company_history` (manager.py): the source returns a
fresh empty history for every company (the file search is a TODO). -/
def get_company_history (company_name : String) : CompanyHistory :=
  { company_name := company_name }

/-- `MemoryManager.get_pending_followups` (manager.py): a task is reported
when its due time has passed; the `sent` flag is not consulted. -/
def get_pending_followups (state : HeartbeatState) (now : DateTime) : List FollowupTask :=
  state.scheduled_followups.filter (fun task => task.due_at.le now)

/-! ## Safety guardrails (safety.py) -/

/-- The three constructor arguments of `SafetyGuardrails`. -/
structure GuardrailsConfig where
  max_daily_emails : Nat := 20
  min_interval_seconds : Nat := 300
  max_followups : Nat := 3
  deriving DecidableEq

/-- `SafetyGuardrails._check_approval`. -/
def check_approval (has_approval : Bool) : SafetyCheck :=
  if !has_approval then
    { passed := false
      level := .blocking
      violation_type := some .missing_approval
      message := "Explicit user approval required before sending"
      details := [("action_required", .str "User must confirm send")] }
  else
    { passed := true
      level := .info
      violation_type := none
      message := "Approval confirmed"
      details := [] }

/-- `SafetyGuardrails._check_daily_limit`. -/
def check_daily_limit (cfg : GuardrailsConfig) (m : Memory) : SafetyCheck :=
  let stats := get_daily_stats m
  if stats.emails_sent ≥ cfg.max_daily_emails then
    { passed := false
      level := .blocking
      violation_type := some .daily_limit
      message := "Daily limit of " ++ toString cfg.max_daily_emails ++ " emails reached"
      details := [("sent_today", .int stats.emails_sent),
                  ("limit", .int cfg.max_daily_emails),
                  ("resets_at", .str "midnight UTC")] }
  else
    { passed := true
      level := .info
      violation_type := none
      message := toString (cfg.max_daily_emails - stats.emails_sent) ++ " emails remaining today"
      details := [("remaining", .int (cfg.max_daily_emails - stats.emails_sent)),
                  ("sent", .int stats.emails_sent)] }

/-- `SafetyGuardrails._check_rate_limit`. -/
def check_rate_limit (cfg : GuardrailsConfig) (state : HeartbeatState) (now : DateTime) :
    SafetyCheck :=
  match state.last_send_timestamp with
  | some last =>
    let elapsed : Int := (now.toSec : Int) - (last.toSec : Int)
    if elapsed < (cfg.min_interval_seconds : Int) then
      { passed := false
        level := .warning
        violation_type := some .rate_limit
        message := "Rate limit: Please wait " ++ toString ((cfg.min_interval_seconds : Int) - elapsed)
                     ++ " seconds before sending"
        details := [("elapsed_seconds", .int elapsed),
                    ("minimum_seconds", .int cfg.min_interval_seconds),
                    ("wait_seconds", .int ((cfg.min_interval_seconds : Int) - elapsed))] }
    else
      { passed := true
        level := .info
        violation_type := none
        message := "Rate limit check passed"
        details := [] }
  | none =>
    { passed := true
      level := .info
      violation_type := none
      message := "Rate limit check passed"
      details := [] }

/-- `SafetyGuardrails._check_company_contact`: warns (while still passing)
on prior contact, which under `get_company_history` above never happens. -/
def check_company_contact (company_name : String) : SafetyCheck :=
  let history := get_company_history company_name
  if history.total_outreach > 0 then
    { passed := true
      level := .warning
      violation_type := some .duplicate_outreach
      message := "Prior contact with " ++ company_name ++ " detected ("
                   ++ toString history.total_outreach ++ " emails)"
      details := [("company", .str company_name),
                  ("previous_outreach", .int history.total_outreach),
                  ("last_contact", match history.last_contact_date with
                                   | some d => .date d
                                   | none => .null),
                  ("recommendation", .str "Review previous emails to avoid duplication")] }
  else
    { passed := true
      level := .info
      violation_type := none
      message := "No prior contact with this company"
      details := [] }

/-- `SafetyGuardrails._check_no_contact_list`: placeholder, always passes. -/
def check_no_contact_list (_email : String) : SafetyCheck :=
  { passed := true
    level := .info
    violation_type := none
    message := "Not on no-contact list"
    details := [] }

/-- The success value returned when every check passes. -/
def allChecksPassed : SafetyCheck :=
  { passed := true
    level := .info
    violation_type := none
    message := "All safety checks passed"
    details := [] }

/-- The consolidation step at the end of `can_send_email` (safety.py):
collect the failed checks and return the first blocking failure, else the
first warning failure, else the first failure, else the success value. -/
def severitySelect (checks : List SafetyCheck) : SafetyCheck :=
  match checks.filter (fun c => !c.passed) with
  | [] => allChecksPassed
  | f :: fs =>
    match (f :: fs).filter (fun c => decide (c.level = SafetyLevel.blocking)) with
    | b :: _ => b
    | [] =>
      match (f :: fs).filter (fun c => decide (c.level = SafetyLevel.warning)) with
      | w :: _ => w
      | [] => f

/-- `SafetyGuardrails.can_send_email` (safety.py): evaluate the five checks
in order and consolidate. -/
def can_send_email (cfg : GuardrailsConfig) (m : Memory) (now : DateTime)
    (_recipient_email company_name : String) (has_explicit_approval : Bool) : SafetyCheck :=
  severitySelect
    [check_approval has_explicit_approval,
     check_daily_limit cfg m,
     check_rate_limit cfg m.heartbeat now,
     check_company_contact company_name,
     check_no_contact_list _recipient_email]

/-- A check result is severity-sound when it either passes at info level or
fails at a level above info; every check `can_send_email` evaluates
produces only such results. -/
def SeveritySound (c : SafetyCheck) : Prop :=
  (c.passed = true ∧ c.level = SafetyLevel.info) ∨
  (c.passed = false ∧ c.level ≠ SafetyLevel.info)

/-- `SafetyGuardrails.can_schedule_followup` (safety.py). -/
def can_schedule_followup (cfg : GuardrailsConfig) (now : DateTime)
    (company_name : String) (followup_count : Nat) (last_contact_date : Option DateTime) :
    SafetyCheck :=
  if followup_count ≥ cfg.max_followups then
    { passed := false
      level := .blocking
      violation_type := some .mass_email_pattern
      message := "Maximum follow-ups (" ++ toString cfg.max_followups ++ ") reached for "
                   ++ company_name
      details := [("company", .str company_name),
                  ("followups_sent", .int followup_count),
                  ("max_allowed", .int cfg.max_followups)] }
  else
    match last_contact_date with
    | some last =>
      let days_since : Int := daysBetween now last
      let min_days : Nat := if followup_count = 0 then 3 else 5
      if days_since < (min_days : Int) then
        { passed := false
          level := .warning
          violation_type := some .rate_limit
          message := "Only " ++ toString days_since ++ " days since last contact. Recommend waiting "
                       ++ toString min_days ++ " days."
          details := [("days_since", .int days_since),
                      ("minimum_recommended", .int min_days),
                      ("suggested_date", .date (last.addDays min_days))] }
      else
        { passed := true
          level := .info
          violation_type := none
          message := "Follow-up can be scheduled"
          details := [("followup_number", .int (followup_count + 1)),
                      ("remaining", .int (cfg.max_followups - followup_count - 1))] }
    | none =>
      { passed := true
        level := .info
        violation_type := none
        message := "Follow-up can be scheduled"
        details := [("followup_number", .int (followup_count + 1)),
                    ("remaining", .int (cfg.max_followups - followup_count - 1))] }

/-! ## Follow-up scheduling and the due filter (auto_campaign.py) -/

/-- The job row handed to `_process_job` / `_schedule_followups`: a dict from
the Sheets/Notion integration.  The two description fields model the
`job_description` and `Job Description` keys read with `.get(key, "")`. -/
structure Job where
  company : String
  role : String
  recipient_name : Option String := none
  email : String
  job_description : String := ""
  job_description_alt : String := ""
  deriving DecidableEq

/-- `AutomatedCampaign._schedule_followups` (auto_campaign.py): compute the
4/8/10 working-day due dates from `now` and append the three tasks to the
heartbeat state. -/
def schedule_followups (now : DateTime) (draft : OutreachEntry) (job : Job)
    (state : HeartbeatState) : HeartbeatState :=
  let followup_1 := add_working_days now 4
  let followup_2 := add_working_days now 8
  let followup_3 := add_working_days now 10
  let job_description :=
    if job.job_description = "" then job.job_description_alt else job.job_description
  let mkTask : DateTime → String → FollowupTask := fun date name =>
    { entry_id := draft.id
      company := job.company
      role := job.role
      email := draft.recipient_email
      recipient_name := pyOr draft.recipient_name "Hiring Manager"
      job_description := job_description
      thread_id := draft.gmail_thread_id
      due_at := date
      followup_name := name
      sent := false }
  { state with
    scheduled_followups :=
      state.scheduled_followups ++
        [mkTask followup_1 "Follow-up 1",
         mkTask followup_2 "Follow-up 2",
         mkTask followup_3 "Follow-up 3"] }

/-- The due filter of `AutomatedCampaign.run_pending_followups`
(auto_campaign.py): skip tasks already marked sent, keep those whose due
time has passed. -/
def due_followups (state : HeartbeatState) (now : DateTime) : List FollowupTask :=
  state.scheduled_followups.filter (fun task => !task.sent && task.due_at.le now)

/-! ## Response processing (core.py) -/

/-- `MuBotAgent.process_response` (core.py), after the LLM collaborator has
classified the response: mark the entry replied, clear its scheduled
follow-up, and drop every heartbeat task referencing its id. -/
def process_response (entry : OutreachEntry) (category : ResponseCategory)
    (response_body : String) (now : DateTime) (state : HeartbeatState) :
    OutreachEntry × HeartbeatState :=
  let entry' := { entry with
    status := .replied
    response_category := some category
    response_body := some response_body
    replied_at := some now
    next_followup_scheduled := none }
  let state' := { state with
    scheduled_followups :=
      state.scheduled_followups.filter (fun f => decide (f.entry_id ≠ entry.id)) }
  (entry', state')

/-! ## Job pipeline (job_pipeline.py) -/

/-- `PipelineStage` from job_pipeline.py. -/
inductive PipelineStage where
  | identified
  | researched
  | contacted
  | applied
  | replied
  | phone_screen
  | interview
  | final_round
  | offer
  | negotiating
  | accepted
  | rejected
  | declined
  | withdrawn
  deriving DecidableEq

/-- The `.value` string of each `PipelineStage` member. -/
def PipelineStage.value : PipelineStage → String
  | .identified => "identified"
  | .researched => "researched"
  | .contacted => "contacted"
  | .applied => "applied"
  | .replied => "replied"
  | .phone_screen => "phone_screen"
  | .interview => "interview"
  | .final_round => "final_round"
  | .offer => "offer"
  | .negotiating => "negotiating"
  | .accepted => "accepted"
  | .rejected => "rejected"
  | .declined => "declined"
  | .withdrawn => "withdrawn"

/-- One entry of the static `STAGE_DEFINITIONS` table. -/
structure StageInfo where
  description : String
  action : String
  deriving DecidableEq

/-- `JobPipeline.STAGE_DEFINITIONS` (job_pipeline.py): the static
stage-to-action table, total over the fourteen stages. -/
def STAGE_DEFINITIONS : PipelineStage → StageInfo
  | .identified => { description := "Role identified, initial interest"
                     action := "Research company and role" }
  | .researched => { description := "Company research complete"
                     action := "Draft personalized outreach" }
  | .contacted => { description := "Cold email sent"
                    action := "Wait for response, prepare follow-up" }
  | .applied => { description := "Formal application submitted"
                  action := "Track application status" }
  | .replied => { description := "Received response from company"
                  action := "Respond promptly, schedule next steps" }
  | .phone_screen => { description := "Phone/video screen scheduled"
                       action := "Prepare for screening call" }
  | .interview => { description := "In interview process"
                    action := "Prepare for interviews, send thank you notes" }
  | .final_round => { description := "Final round interviews"
                      action := "Final preparation, references ready" }
  | .offer => { description := "Offer received"
                action := "Evaluate offer, prepare negotiation" }
  | .negotiating => { description := "Negotiating terms"
                      action := "Finalize negotiation details" }
  | .accepted => { description := "Offer accepted"
                   action := "Celebrate and prepare for new role" }
  | .rejected => { description := "Rejected by company"
                   action := "Request feedback, update records" }
  | .declined => { description := "Declined offer"
                   action := "Maintain relationship, document learnings" }
  | .withdrawn => { description := "Withdrew application"
                    action := "Document reason, maintain relationship" }

/-- A `notes` list entry of a `JobOpportunity`: in the source a dict with a
`date` (isoformat timestamp) and a `content` string. -/
structure Note where
  date : DateTime
  content : String
  deriving DecidableEq

/-- `JobOpportunity` from models.py (fields `advance_stage` touches). -/
structure JobOpportunity where
  id : String
  created_at : DateTime
  company_name : String
  role_title : String
  stage : String := "identified"
  notes : List Note := []
  next_action : Option String := none
  is_active : Bool := true
  deriving DecidableEq

/-- `self._opportunities.get(opp_id)` on the id-keyed dict, modelled as an
association list. -/
def findOpp (opps : List (String × JobOpportunity)) (opp_id : String) :
    Option JobOpportunity :=
  (opps.find? (fun p => p.1 == opp_id)).map Prod.snd

/-- Writing back the mutated opportunity under its existing key. -/
def setOpp (opps : List (String × JobOpportunity)) (opp_id : String)
    (opp : JobOpportunity) : List (String × JobOpportunity) :=
  opps.map (fun p => if p.1 == opp_id then (p.1, opp) else p)

/-- The mutation `advance_stage` applies to a found opportunity: overwrite
the stage, append the one transition note, and look the next action up in
the static table.  The free-text context is added only under Python
truthiness (`if notes:`), so an empty string appends nothing. -/
def advanceOpp (opp : JobOpportunity) (new_stage : PipelineStage)
    (notes : Option String) (now : DateTime) : JobOpportunity :=
  let old_stage := opp.stage
  let note_content :=
    "Stage changed: " ++ old_stage ++ " → " ++ new_stage.value ++
      (match notes with
       | some n => if n = "" then "" else " | " ++ n
       | none => "")
  { opp with
    stage := new_stage.value
    notes := opp.notes ++ [{ date := now, content := note_content }]
    next_action := some (STAGE_DEFINITIONS new_stage).action }

/-- `JobPipeline.advance_stage` (job_pipeline.py): returns the updated
opportunity (or `none` when the id is unknown) and the updated store. -/
def advance_stage (opps : List (String × JobOpportunity)) (opp_id : String)
    (new_stage : PipelineStage) (notes : Option String) (now : DateTime) :
    Option JobOpportunity × List (String × JobOpportunity) :=
  match findOpp opps opp_id with
  | none => (none, opps)
  | some opp =>
    let opp' := advanceOpp opp new_stage notes now
    (some opp', setOpp opps opp_id opp')

/-! ## The composite policy as the specification words it (for C2) -/

/-- Modelled from the spec: "if any check is blocking, return the first
blocking result. Else if any is warning, return the first warning. Else
return success" — a selector over the ordered list of evaluated checks,
written from the spec's words for comparison with `can_send_email`. -/
def claimComposite (checks : List SafetyCheck) : SafetyCheck :=
  match checks.find? (fun c => decide (c.level = SafetyLevel.blocking)) with
  | some b => b
  | none =>
    match checks.find? (fun c => decide (c.level = SafetyLevel.warning)) with
    | some w => w
    | none => allChecksPassed

/-! ## Concrete evaluation scenarios -/

/-- A fixed clock value used by the concrete scenarios below. -/
def nowExample : DateTime := { day := 20000, tod := 36000 }

/-- A last-contact instant one day before `nowExample`. -/
def lastContactExample : DateTime := { day := 19999, tod := 36000 }

/-- A concrete outreach entry with status `sent`, as persisted after a
successful send. -/
def sentEntryExample : OutreachEntry :=
  { id := "e-1"
    created_at := { day := 20000, tod := 32400 }
    recipient_email := "hiring@techcorp.example"
    company_name := "TechCorp"
    role_title := "Engineer"
    subject := "Hello"
    body := "A short note."
    status := .sent
    drafted_at := some { day := 20000, tod := 32000 }
    sent_at := some { day := 20000, tod := 32400 } }

/-- Guardrails configured with `max_daily_emails = 5`. -/
def cfgMax5 : GuardrailsConfig := { max_daily_emails := 5 }

/-- The memory state after saving five sent entries to today's daily log
through `save_outreach_entry`. -/
def memoryWithFiveSent : Memory :=
  { todayStr := "2024-10-04"
    todayContent := daily_log_content (List.replicate 5 (format_outreach_entry sentEntryExample))
    heartbeat := {} }

/-- A follow-up task already marked sent whose due time lies in the past. -/
def sentTaskExample : FollowupTask :=
  { entry_id := "e-1"
    company := "TechCorp"
    role := "Engineer"
    email := "hiring@techcorp.example"
    recipient_name := "Hiring Manager"
    job_description := "desc"
    thread_id := none
    due_at := { day := 19990, tod := 0 }
    followup_name := "Follow-up 1"
    sent := true }

/-- An unsent follow-up task for a different entry, also overdue. -/
def otherTaskExample : FollowupTask :=
  { entry_id := "e-2"
    company := "OtherCorp"
    role := "Analyst"
    email := "jobs@othercorp.example"
    recipient_name := "Hiring Manager"
    job_description := "desc2"
    thread_id := some "t-2"
    due_at := { day := 19991, tod := 0 }
    followup_name := "Follow-up 2"
    sent := false }

/-- A heartbeat state holding only the already-sent overdue task. -/
def stateWithSentTask : HeartbeatState := { scheduled_followups := [sentTaskExample] }

/-- A heartbeat state holding only the unsent overdue task. -/
def stateWithUnsentTask : HeartbeatState := { scheduled_followups := [otherTaskExample] }

/-- A heartbeat state holding one task of `sentEntryExample` and one task of
another entry. -/
def stateWithTwoTasks : HeartbeatState :=
  { scheduled_followups := [sentTaskExample, otherTaskExample] }

/-- A pipeline opportunity sitting in the terminal stage `accepted`. -/
def oppExample : JobOpportunity :=
  { id := "opp-1"
    created_at := { day := 20000, tod := 0 }
    company_name := "TechCorp"
    role_title := "Engineer"
    stage := "accepted" }

/-- A one-element opportunity store. -/
def oppsExample : List (String × JobOpportunity) := [("opp-1", oppExample)]

/-! # Theorems -/

/-! ## Working-day arithmetic -/

theorem weekdaysAfter_zero (a : Nat) : weekdaysAfter a 0 = 0 := rfl

theorem weekdaysAfter_succ_front (a n : Nat) :
    weekdaysAfter a (n + 1) =
      (if isWeekdayNum (a + 1) then 1 else 0) + weekdaysAfter (a + 1) n := by
  simp only [weekdaysAfter, List.range'_succ, List.filter_cons]
  by_cases h : isWeekdayNum (a + 1) <;> simp [h, Nat.add_comm]

/-- Loop invariant for `addWorkingDaysGo`: the result does not move backwards,
keeps the time of day, and the weekdays crossed strictly after `current`
number exactly `workingDays - daysAdded`. -/
theorem addWorkingDaysGo_spec (current : DateTime) (daysAdded workingDays : Nat)
    (h : daysAdded ≤ workingDays) :
    current.day ≤ (addWorkingDaysGo current daysAdded workingDays).day ∧
    (addWorkingDaysGo current daysAdded workingDays).tod = current.tod ∧
    weekdaysAfter current.day ((addWorkingDaysGo current daysAdded workingDays).day - current.day)
      = workingDays - daysAdded := by
  induction current, daysAdded, workingDays using addWorkingDaysGo.induct with
  | case1 current daysAdded workingDays hlt hw ih =>
    rw [addWorkingDaysGo, if_pos hlt, if_pos hw]
    obtain ⟨ih1, ih2, ih3⟩ := ih (by omega)
    have hd : (current.addDays 1).day = current.day + 1 := rfl
    refine ⟨by omega, by simpa [DateTime.addDays] using ih2, ?_⟩
    have hcount :
        (addWorkingDaysGo (current.addDays 1) (daysAdded + 1) workingDays).day - current.day
          = ((addWorkingDaysGo (current.addDays 1) (daysAdded + 1) workingDays).day
              - (current.addDays 1).day) + 1 := by
      omega
    rw [hcount, weekdaysAfter_succ_front]
    have hwk : isWeekdayNum (current.day + 1) = true := by
      have : ((current.day + 1) + 3) % 7 < 5 := hw
      simpa [isWeekdayNum] using this
    rw [if_pos hwk]
    rw [hd] at ih3
    rw [hd]
    rw [ih3]
    omega
  | case2 current daysAdded workingDays hlt hw ih =>
    rw [addWorkingDaysGo, if_pos hlt, if_neg hw]
    obtain ⟨ih1, ih2, ih3⟩ := ih h
    have hd : (current.addDays 1).day = current.day + 1 := rfl
    refine ⟨by omega, by simpa [DateTime.addDays] using ih2, ?_⟩
    have hcount :
        (addWorkingDaysGo (current.addDays 1) daysAdded workingDays).day - current.day
          = ((addWorkingDaysGo (current.addDays 1) daysAdded workingDays).day
              - (current.addDays 1).day) + 1 := by
      omega
    rw [hcount, weekdaysAfter_succ_front]
    have hwk : isWeekdayNum (current.day + 1) = false := by
      have : ¬ (((current.day + 1) + 3) % 7 < 5) := hw
      simpa [isWeekdayNum] using this
    rw [if_neg (by simp [hwk])]
    rw [hd] at ih3
    rw [hd]
    rw [ih3]
    omega
  | case3 current daysAdded workingDays hge =>
    rw [addWorkingDaysGo, if_neg hge]
    have : daysAdded = workingDays := by omega
    simp [this, weekdaysAfter_zero]

/-- C4: for every start instant and every count N ≥ 0 of working days,
`add_working_days start N` lands on or after the start day and the number of
weekdays (Monday–Friday) strictly after `start` and up to and including the
result equals N. -/
theorem add_working_days_weekday_count (start : DateTime) (N : Nat) :
    start.day ≤ (add_working_days start N).day ∧
    weekdaysAfter start.day ((add_working_days start N).day - start.day) = N := by
  have h := addWorkingDaysGo_spec start 0 N (Nat.zero_le N)
  exact ⟨h.1, by simpa [add_working_days] using h.2.2⟩

/-! ## The composite send policy -/

/-- A first failed check at blocking level is returned as-is. -/
theorem severitySelect_cons_blocking (c : SafetyCheck) (rest : List SafetyCheck)
    (hp : c.passed = false) (hl : c.level = SafetyLevel.blocking) :
    severitySelect (c :: rest) = c := by
  simp [severitySelect, List.filter_cons, hp, hl]

theorem find?_eq_head?_filter {α : Type} (p : α → Bool) (l : List α) :
    l.find? p = (l.filter p).head? := by
  induction l with
  | nil => rfl
  | cons a l ih =>
    cases hp : p a with
    | true => rw [List.find?_cons_of_pos _ hp, List.filter_cons_of_pos hp]; rfl
    | false => rw [List.find?_cons_of_neg _ (by simp [hp]), List.filter_cons_of_neg (by simp [hp]), ih]

/-- Filtering the failures by a level predicate that excludes info gives the
same list as filtering all severity-sound checks by it. -/
theorem filter_failures_comm (q : SafetyCheck → Bool)
    (hq : ∀ c, q c = true → c.level ≠ SafetyLevel.info)
    (l : List SafetyCheck) (h : ∀ c ∈ l, SeveritySound c) :
    (l.filter (fun c => !c.passed)).filter q = l.filter q := by
  induction l with
  | nil => rfl
  | cons a l ih =>
    have hrest : ∀ c ∈ l, SeveritySound c := fun c hc => h c (List.mem_cons_of_mem a hc)
    rcases h a (List.mem_cons_self a l) with ⟨hp, hl⟩ | ⟨hp, _⟩
    · have hqa : q a = false := by
        cases hqv : q a with
        | false => rfl
        | true => exact absurd hl (hq a hqv)
      simp [List.filter_cons, hp, hqa, ih hrest]
    · by_cases hb : q a = true
      · simp [List.filter_cons, hp, hb, ih hrest]
      · simp [List.filter_cons, hp, Bool.eq_false_iff.mpr hb, ih hrest]

/-- Over severity-sound checks the source's consolidation step computes
exactly the composite policy the specification states. -/
theorem severitySelect_eq_claimComposite (checks : List SafetyCheck)
    (h : ∀ c ∈ checks, SeveritySound c) :
    severitySelect checks = claimComposite checks := by
  have hqB : ∀ c : SafetyCheck, (fun c => decide (c.level = SafetyLevel.blocking)) c = true →
      c.level ≠ SafetyLevel.info := by
    intro c hc
    have hcl : c.level = SafetyLevel.blocking := of_decide_eq_true hc
    simp [hcl]
  have hqW : ∀ c : SafetyCheck, (fun c => decide (c.level = SafetyLevel.warning)) c = true →
      c.level ≠ SafetyLevel.info := by
    intro c hc
    have hcl : c.level = SafetyLevel.warning := of_decide_eq_true hc
    simp [hcl]
  have hB := filter_failures_comm _ hqB checks h
  have hW := filter_failures_comm _ hqW checks h
  have hfB := find?_eq_head?_filter (fun c => decide (c.level = SafetyLevel.blocking)) checks
  have hfW := find?_eq_head?_filter (fun c => decide (c.level = SafetyLevel.warning)) checks
  simp only [severitySelect, claimComposite, hfB, hfW, ← hB, ← hW]
  cases hF : checks.filter (fun c => !c.passed) with
  | nil => simp
  | cons f fs =>
    cases hFB : (f :: fs).filter (fun c => decide (c.level = SafetyLevel.blocking)) with
    | cons b bs => simp [hFB]
    | nil =>
      cases hFW : (f :: fs).filter (fun c => decide (c.level = SafetyLevel.warning)) with
      | cons w ws => simp [hFB, hFW]
      | nil =>
        exfalso
        have hfm : f ∈ checks.filter (fun c => !c.passed) := by
          rw [hF]; exact List.mem_cons_self _ _
        have hfc : f ∈ checks := (List.mem_filter.mp hfm).1
        have hfp : f.passed = false := by
          have := (List.mem_filter.mp hfm).2
          simpa using this
        rcases h f hfc with ⟨hp, _⟩ | ⟨_, hl⟩
        · rw [hp] at hfp; cases hfp
        · cases hlv : f.level with
          | info => exact hl hlv
          | blocking =>
            have hmem : f ∈ (f :: fs).filter
                (fun c => decide (c.level = SafetyLevel.blocking)) :=
              List.mem_filter.mpr ⟨List.mem_cons_self _ _, by simp [hlv]⟩
            rw [hFB] at hmem
            cases hmem
          | warning =>
            have hmem : f ∈ (f :: fs).filter
                (fun c => decide (c.level = SafetyLevel.warning)) :=
              List.mem_filter.mpr ⟨List.mem_cons_self _ _, by simp [hlv]⟩
            rw [hFW] at hmem
            cases hmem

theorem severitySound_check_approval (b : Bool) : SeveritySound (check_approval b) := by
  cases b <;> simp [check_approval, SeveritySound]

theorem severitySound_check_daily_limit (cfg : GuardrailsConfig) (m : Memory) :
    SeveritySound (check_daily_limit cfg m) := by
  rw [check_daily_limit]
  split_ifs <;> simp [SeveritySound]

theorem severitySound_check_rate_limit (cfg : GuardrailsConfig) (state : HeartbeatState)
    (now : DateTime) : SeveritySound (check_rate_limit cfg state now) := by
  rw [check_rate_limit]
  cases state.last_send_timestamp with
  | none => simp [SeveritySound]
  | some last =>
    by_cases h : ((now.toSec : Int) - (last.toSec : Int)) < (cfg.min_interval_seconds : Int) <;>
      simp [h, SeveritySound]

theorem severitySound_check_company_contact (company : String) :
    SeveritySound (check_company_contact company) := by
  simp [check_company_contact, get_company_history, SeveritySound]

theorem severitySound_check_no_contact_list (email : String) :
    SeveritySound (check_no_contact_list email) := by
  simp [check_no_contact_list, SeveritySound]

/-- C1: with `has_explicit_approval = False`, `can_send_email` returns a
failed result at blocking severity with violation `MISSING_APPROVAL`, for
every configuration, memory state, clock value, recipient and company. -/
theorem can_send_email_without_approval_blocks (cfg : GuardrailsConfig) (m : Memory)
    (now : DateTime) (recipient_email company_name : String) :
    (can_send_email cfg m now recipient_email company_name false).passed = false ∧
    (can_send_email cfg m now recipient_email company_name false).level =
      SafetyLevel.blocking ∧
    (can_send_email cfg m now recipient_email company_name false).violation_type =
      some ViolationType.missing_approval := by
  have happ : check_approval false =
      { passed := false
        level := .blocking
        violation_type := some .missing_approval
        message := "Explicit user approval required before sending"
        details := [("action_required", .str "User must confirm send")] } := rfl
  have hsel : can_send_email cfg m now recipient_email company_name false =
      check_approval false := by
    rw [can_send_email]
    exact severitySelect_cons_blocking _ _ (by rw [happ]) (by rw [happ])
  rw [hsel, happ]
  exact ⟨rfl, rfl, rfl⟩

/-- C2: `can_send_email` evaluates approval, daily-limit, rate-limit,
company-duplicate and no-contact checks in this order, and its composite
result is exactly the policy the specification states over that ordered
list: the first blocking check if any check is blocking, else the first
warning check if any is a warning, else the passed success result
(`claimComposite` transcribes the specification wording). -/
theorem can_send_email_composite_policy (cfg : GuardrailsConfig) (m : Memory)
    (now : DateTime) (recipient_email company_name : String)
    (has_explicit_approval : Bool) :
    can_send_email cfg m now recipient_email company_name has_explicit_approval =
      claimComposite
        [check_approval has_explicit_approval,
         check_daily_limit cfg m,
         check_rate_limit cfg m.heartbeat now,
         check_company_contact company_name,
         check_no_contact_list recipient_email] := by
  rw [can_send_email]
  apply severitySelect_eq_claimComposite
  intro c hc
  simp only [List.mem_cons, List.mem_singleton, List.not_mem_nil, or_false] at hc
  rcases hc with h1 | h2 | h3 | h4 | h5
  · rw [h1]; exact severitySound_check_approval _
  · rw [h2]; exact severitySound_check_daily_limit _ _
  · rw [h3]; exact severitySound_check_rate_limit _ _ _
  · rw [h4]; exact severitySound_check_company_contact _
  · rw [h5]; exact severitySound_check_no_contact_list _

/-! ## Daily limit (C3) -/

set_option maxRecDepth 100000 in
set_option maxHeartbeats 1000000 in
/-- C3 (bug evidence): the writer `_format_outreach_entry` renders the
status as `**Status**: sent`, but `get_daily_stats` counts occurrences of
`Status: sent`, which never matches.  With five sent entries saved today and
`max_daily_emails = 5`, the computed count is 0 and `can_send_email` with
explicit approval passes instead of blocking with `DAILY_LIMIT`. -/
theorem daily_limit_not_enforced_at_five_sent :
    pyCount (format_outreach_entry sentEntryExample) "**Status**: sent" = 1 ∧
    (get_daily_stats memoryWithFiveSent).emails_sent = 0 ∧
    (can_send_email cfgMax5 memoryWithFiveSent nowExample "hiring@techcorp.example"
        "TechCorp" true).passed = true := by
  refine ⟨by decide, by decide, by decide⟩

/-! ## Follow-up scheduling (C5) -/

/-- C5: scheduling follow-ups after a send at instant `now` appends exactly
three tasks to the scheduled set, carrying the originating entry id,
company, recipient email, job-description snapshot, thread id and ordinal
label, each with `sent = false`; their due instants are `now` advanced by
4, 8 and 10 working days (the weekday counts strictly after `now` up to
each due day are 4, 8 and 10). -/
theorem schedule_followups_spec (now : DateTime) (draft : OutreachEntry) (job : Job)
    (state : HeartbeatState) :
    (schedule_followups now draft job state).scheduled_followups =
      state.scheduled_followups ++
        [{ entry_id := draft.id
           company := job.company
           role := job.role
           email := draft.recipient_email
           recipient_name := pyOr draft.recipient_name "Hiring Manager"
           job_description := if job.job_description = "" then job.job_description_alt
                              else job.job_description
           thread_id := draft.gmail_thread_id
           due_at := add_working_days now 4
           followup_name := "Follow-up 1"
           sent := false },
         { entry_id := draft.id
           company := job.company
           role := job.role
           email := draft.recipient_email
           recipient_name := pyOr draft.recipient_name "Hiring Manager"
           job_description := if job.job_description = "" then job.job_description_alt
                              else job.job_description
           thread_id := draft.gmail_thread_id
           due_at := add_working_days now 8
           followup_name := "Follow-up 2"
           sent := false },
         { entry_id := draft.id
           company := job.company
           role := job.role
           email := draft.recipient_email
           recipient_name := pyOr draft.recipient_name "Hiring Manager"
           job_description := if job.job_description = "" then job.job_description_alt
                              else job.job_description
           thread_id := draft.gmail_thread_id
           due_at := add_working_days now 10
           followup_name := "Follow-up 3"
           sent := false }] ∧
    weekdaysAfter now.day ((add_working_days now 4).day - now.day) = 4 ∧
    weekdaysAfter now.day ((add_working_days now 8).day - now.day) = 8 ∧
    weekdaysAfter now.day ((add_working_days now 10).day - now.day) = 10 := by
  refine ⟨rfl, ?_, ?_, ?_⟩
  · simpa [add_working_days] using (addWorkingDaysGo_spec now 0 4 (by omega)).2.2
  · simpa [add_working_days] using (addWorkingDaysGo_spec now 0 8 (by omega)).2.2
  · simpa [add_working_days] using (addWorkingDaysGo_spec now 0 10 (by omega)).2.2

/-! ## Due-task queries (C6) -/

/-- C6 counterexample: the memory manager due query reports an overdue task
even though its sent flag is true, so "reported due only if sent is False"
fails on `get_pending_followups`. -/
theorem get_pending_followups_reports_sent_task :
    get_pending_followups stateWithSentTask nowExample = [sentTaskExample] ∧
    sentTaskExample.sent = true := by
  exact ⟨by decide, rfl⟩

/-- C6 (amended): the campaign runner due filter reports a task iff its due
time has passed and its sent flag is false; the memory manager query
`get_pending_followups` reports a task iff its due time has passed,
regardless of the sent flag; neither query expires tasks, so a task that is
due and unsent stays due at every later instant. -/
theorem due_task_queries_spec (state : HeartbeatState) (now : DateTime) (t : FollowupTask) :
    (t ∈ due_followups state now ↔
      t ∈ state.scheduled_followups ∧ t.sent = false ∧ t.due_at.le now = true) ∧
    (t ∈ get_pending_followups state now ↔
      t ∈ state.scheduled_followups ∧ t.due_at.le now = true) ∧
    (∀ later : DateTime, now.le later = true →
      t ∈ due_followups state now → t ∈ due_followups state later) := by
  refine ⟨?_, ?_, ?_⟩
  · simp [due_followups, List.mem_filter, Bool.not_eq_true_eq_eq_false, and_assoc]
  · simp [get_pending_followups, List.mem_filter]
  · intro later hle hmem
    simp only [due_followups, List.mem_filter, Bool.and_eq_true,
      Bool.not_eq_true_eq_eq_false] at hmem ⊢
    refine ⟨hmem.1, hmem.2.1, ?_⟩
    have h1 : t.due_at.toSec ≤ now.toSec := by
      simpa [DateTime.le] using hmem.2.2
    have h2 : now.toSec ≤ later.toSec := by
      simpa [DateTime.le] using hle
    simp only [DateTime.le, decide_eq_true_eq]
    omega

theorem due_task_queries_spec_witness :
    otherTaskExample ∈ due_followups stateWithUnsentTask { day := 20010, tod := 0 } := by
  exact (due_task_queries_spec stateWithUnsentTask nowExample otherTaskExample).2.2
    { day := 20010, tod := 0 } (by decide)
    ((due_task_queries_spec stateWithUnsentTask nowExample otherTaskExample).1.mpr
      ⟨by decide, rfl, by decide⟩)

/-! ## Response processing (C7, C10) -/

/-- C7: after `process_response`, the entry is marked replied with a cleared
`next_followup_scheduled`, and the persisted heartbeat state contains no
scheduled task whose entry id equals the replied entry id. -/
theorem process_response_clears_followups (entry : OutreachEntry)
    (category : ResponseCategory) (response_body : String) (now : DateTime)
    (state : HeartbeatState) :
    (process_response entry category response_body now state).1.next_followup_scheduled
        = none ∧
    (process_response entry category response_body now state).1.status
        = OutreachStatus.replied ∧
    ∀ t ∈ (process_response entry category response_body now state).2.scheduled_followups,
      t.entry_id ≠ entry.id := by
  refine ⟨rfl, rfl, ?_⟩
  intro t ht
  simp only [process_response, List.mem_filter, decide_eq_true_eq] at ht
  exact ht.2

theorem process_response_clears_followups_witness :
    otherTaskExample.entry_id ≠ sentEntryExample.id := by
  exact (process_response_clears_followups sentEntryExample .positive "Thanks" nowExample
    stateWithTwoTasks).2.2 otherTaskExample (by decide)

/-- C10 (frame): processing a response keeps every task whose entry id
differs: the surviving list is a sublist of the original (so the kept tasks
are the original records in their original relative order), a task with a
different entry id survives exactly when it was present, and its
multiplicity is unchanged. -/
theorem process_response_frame (entry : OutreachEntry) (category : ResponseCategory)
    (response_body : String) (now : DateTime) (state : HeartbeatState) :
    ((process_response entry category response_body now state).2.scheduled_followups).Sublist
        state.scheduled_followups ∧
    (∀ t ∈ state.scheduled_followups, t.entry_id ≠ entry.id →
      t ∈ (process_response entry category response_body now state).2.scheduled_followups) ∧
    (∀ t : FollowupTask, t.entry_id ≠ entry.id →
      ((process_response entry category response_body now state).2.scheduled_followups).count t
        = (state.scheduled_followups).count t) := by
  refine ⟨?_, ?_, ?_⟩
  · simp only [process_response]
    exact List.filter_sublist _
  · intro t hmem hne
    simp only [process_response, List.mem_filter, decide_eq_true_eq]
    exact ⟨hmem, hne⟩
  · intro t hne
    simp only [process_response, decide_not]
    induction state.scheduled_followups with
    | nil => rfl
    | cons a l ih =>
      by_cases ha : a.entry_id = entry.id
      · have hat : (a == t) = false := by
          apply beq_eq_false_iff_ne.mpr
          intro hEq
          rw [hEq] at ha
          exact hne ha
        simp [List.filter_cons, ha, List.count_cons, hat, ih]
      · simp [List.filter_cons, ha, List.count_cons, ih]

theorem process_response_frame_witness :
    ((process_response sentEntryExample .positive "Thanks" nowExample
        stateWithTwoTasks).2.scheduled_followups).count otherTaskExample
      = (stateWithTwoTasks.scheduled_followups).count otherTaskExample := by
  exact (process_response_frame sentEntryExample .positive "Thanks" nowExample
    stateWithTwoTasks).2.2 otherTaskExample (by decide)

/-! ## Follow-up eligibility (C8) -/

/-- C8: `can_schedule_followup` blocks once `followup_count` reaches
`max_followups`; below the cap it returns a non-blocking warning when fewer
than 3 days (before the first follow-up) or 5 days (before later ones) have
elapsed since the last contact, reporting the suggested next-eligible date,
and otherwise (including when no last-contact date is known) it passes. -/
theorem can_schedule_followup_spec (cfg : GuardrailsConfig) (now : DateTime)
    (company : String) (followup_count : Nat) (last_contact_date : Option DateTime) :
    (followup_count ≥ cfg.max_followups →
      (can_schedule_followup cfg now company followup_count last_contact_date).passed
          = false ∧
      (can_schedule_followup cfg now company followup_count last_contact_date).level
          = SafetyLevel.blocking) ∧
    (followup_count < cfg.max_followups →
      ∀ last, last_contact_date = some last →
        daysBetween now last < ((if followup_count = 0 then 3 else 5 : Nat) : Int) →
        (can_schedule_followup cfg now company followup_count last_contact_date).passed
            = false ∧
        (can_schedule_followup cfg now company followup_count last_contact_date).level
            = SafetyLevel.warning ∧
        ("suggested_date",
          DetailValue.date (last.addDays (if followup_count = 0 then 3 else 5)))
          ∈ (can_schedule_followup cfg now company followup_count last_contact_date).details) ∧
    (followup_count < cfg.max_followups →
      (∀ last, last_contact_date = some last →
        ((if followup_count = 0 then 3 else 5 : Nat) : Int) ≤ daysBetween now last) →
      (can_schedule_followup cfg now company followup_count last_contact_date).passed
          = true) := by
  by_cases hge : followup_count ≥ cfg.max_followups
  · refine ⟨fun _ => ?_, fun hlt => absurd hge (by omega), fun hlt _ => absurd hge (by omega)⟩
    simp [can_schedule_followup, if_pos hge]
  · cases hlc : last_contact_date with
    | none =>
      refine ⟨fun h => absurd h hge, ?_, ?_⟩
      · intro _ last hlast
        cases hlast
      · intro _ _
        simp [can_schedule_followup, if_neg hge]
    | some last =>
      by_cases hdays : daysBetween now last < ((if followup_count = 0 then 3 else 5 : Nat) : Int)
      · refine ⟨fun h => absurd h hge, ?_, ?_⟩
        · intro _ l hl hd
          injection hl with hll
          subst hll
          simp only [can_schedule_followup, if_neg hge]
          rw [if_pos hdays]
          refine ⟨rfl, rfl, ?_⟩
          simp
        · intro _ hall
          have := hall last rfl
          omega
      · refine ⟨fun h => absurd h hge, ?_, ?_⟩
        · intro _ l hl hd
          injection hl with hll
          subst hll
          exact absurd hd hdays
        · intro _ _
          simp only [can_schedule_followup, if_neg hge]
          rw [if_neg hdays]

theorem can_schedule_followup_spec_witness :
    (can_schedule_followup {} nowExample "TechCorp" 3 none).passed = false ∧
    (can_schedule_followup {} nowExample "TechCorp" 0 (some lastContactExample)).level
        = SafetyLevel.warning ∧
    (can_schedule_followup {} nowExample "TechCorp" 1 none).passed = true := by
  refine ⟨?_, ?_, ?_⟩
  · exact ((can_schedule_followup_spec {} nowExample "TechCorp" 3 none).1 (by decide)).1
  · exact ((can_schedule_followup_spec {} nowExample "TechCorp" 0
      (some lastContactExample)).2.1 (by decide) lastContactExample rfl (by decide)).2.1
  · exact (can_schedule_followup_spec {} nowExample "TechCorp" 1 none).2.2 (by decide)
      (fun last h => by cases h)

/-! ## Pipeline stage transitions (C9) -/

/-- C9: for an existing opportunity and an arbitrary target stage (whatever
the current stage, terminal ones included) `advance_stage` applies the
transition: it overwrites the stage, appends exactly one transition note
recording the old and new stage, and sets `next_action` to the action the
static stage table assigns to the new stage. -/
theorem advance_stage_spec (opps : List (String × JobOpportunity)) (opp_id : String)
    (new_stage : PipelineStage) (notes : Option String) (now : DateTime)
    (opp : JobOpportunity) (hfind : findOpp opps opp_id = some opp) :
    (advance_stage opps opp_id new_stage notes now).1
        = some (advanceOpp opp new_stage notes now) ∧
    (advance_stage opps opp_id new_stage notes now).2
        = setOpp opps opp_id (advanceOpp opp new_stage notes now) ∧
    (advanceOpp opp new_stage notes now).stage = new_stage.value ∧
    (advanceOpp opp new_stage notes now).notes =
      opp.notes ++
        [{ date := now
           content := "Stage changed: " ++ opp.stage ++ " → " ++ new_stage.value ++
             (match notes with
              | some n => if n = "" then "" else " | " ++ n
              | none => "") }] ∧
    (advanceOpp opp new_stage notes now).next_action
        = some (STAGE_DEFINITIONS new_stage).action := by
  refine ⟨?_, ?_, rfl, rfl, rfl⟩
  · simp [advance_stage, hfind]
  · simp [advance_stage, hfind]

theorem advance_stage_spec_witness :
    (advance_stage oppsExample "opp-1" PipelineStage.contacted none nowExample).1
        = some (advanceOpp oppExample PipelineStage.contacted none nowExample) ∧
    (advanceOpp oppExample PipelineStage.contacted none nowExample).next_action
        = some "Wait for response, prepare follow-up" := by
  refine ⟨?_, ?_⟩
  · exact (advance_stage_spec oppsExample "opp-1" PipelineStage.contacted none nowExample
      oppExample (by decide)).1
  · exact (advance_stage_spec oppsExample "opp-1" PipelineStage.contacted none nowExample
      oppExample (by decide)).2.2.2.2

end MuBot
